import Mathlib

/-!
Verification of the AQI estimation and multi-source reconciliation core of the
airwatch-pro backend.  Python floats are modelled as exact rationals (ℚ); the
builtin `round` is modelled as round-half-to-even on the exact rational value,
`int(...)` as truncation toward zero.  Each definition mirrors one function of
the backend source; spec-side definitions (named `spec...`) follow the wording
of the specification and are compared against the code-side ones.
-/

namespace AirWatch

/-- Python builtin `round` on a rational value: round to the nearest integer,
ties going to the even neighbour. -/
def pyRound (x : ℚ) : ℤ :=
  if x - ⌊x⌋ < 1/2 then ⌊x⌋
  else if 1/2 < x - ⌊x⌋ then ⌊x⌋ + 1
  else if 2 ∣ ⌊x⌋ then ⌊x⌋ else ⌊x⌋ + 1

/-- Python `round(x, n)`: round to `n` decimal places. -/
def pyRoundTo (n : ℕ) (x : ℚ) : ℚ := (pyRound (x * 10 ^ n) : ℚ) / 10 ^ n

/-- Python `int(...)` applied to a float: truncation toward zero. -/
def pyInt (x : ℚ) : ℤ := if 0 ≤ x then ⌊x⌋ else -⌊-x⌋

theorem floor_le_pyRound (x : ℚ) : ⌊x⌋ ≤ pyRound x := by
  unfold pyRound
  have h1 : (⌊x⌋ : ℚ) ≤ x := Int.floor_le x
  split_ifs <;> omega

theorem pyRound_le_floor_add_one (x : ℚ) : pyRound x ≤ ⌊x⌋ + 1 := by
  unfold pyRound
  split_ifs <;> omega

theorem pyRound_intCast (n : ℤ) : pyRound (n : ℚ) = n := by
  unfold pyRound
  have h1 : ⌊(n : ℚ)⌋ = n := Int.floor_intCast n
  rw [h1]
  norm_num

theorem pyRound_mono {x y : ℚ} (h : x ≤ y) : pyRound x ≤ pyRound y := by
  rcases lt_or_le (⌊x⌋ : ℤ) ⌊y⌋ with hf | hf
  · calc pyRound x ≤ ⌊x⌋ + 1 := pyRound_le_floor_add_one x
      _ ≤ ⌊y⌋ := by omega
      _ ≤ pyRound y := floor_le_pyRound y
  · have hfe : ⌊x⌋ = ⌊y⌋ := le_antisymm (Int.floor_mono h) hf
    have hr : x - (⌊x⌋ : ℚ) ≤ y - (⌊y⌋ : ℚ) := by
      rw [← hfe]; linarith
    unfold pyRound
    rw [hfe]
    split_ifs <;> first | omega | linarith

theorem int_le_pyRound {n : ℤ} {x : ℚ} (h : (n : ℚ) ≤ x) : n ≤ pyRound x := by
  have := pyRound_mono h
  rwa [pyRound_intCast] at this

theorem pyRound_le_int {n : ℤ} {x : ℚ} (h : x ≤ (n : ℚ)) : pyRound x ≤ n := by
  have := pyRound_mono h
  rwa [pyRound_intCast] at this

theorem pyRoundTo_mono (n : ℕ) {x y : ℚ} (h : x ≤ y) :
    pyRoundTo n x ≤ pyRoundTo n y := by
  unfold pyRoundTo
  have hp : (0 : ℚ) < 10 ^ n := by positivity
  have hm : x * 10 ^ n ≤ y * 10 ^ n := by
    exact mul_le_mul_of_nonneg_right h (le_of_lt hp)
  have h2 := pyRound_mono hm
  have h3 : (pyRound (x * 10 ^ n) : ℚ) ≤ (pyRound (y * 10 ^ n) : ℚ) := by
    exact_mod_cast h2
  gcongr

/-!
EPA AirNow converter, from `backend_backup/app/services/epa_airnow_service.py`:
the breakpoint table `aqi_breakpoints` and the function `calculate_aqi`.
-/

/-- One row of the EPA breakpoint table: concentration band `[lo, hi]` mapped
linearly onto the AQI band `[ilo, ihi]`. -/
structure Bp where
  lo : ℚ
  hi : ℚ
  ilo : ℤ
  ihi : ℤ
deriving DecidableEq

/-- Python `str.lower()`, modelled as a character map over the string data. -/
def pyLower (s : String) : String := ⟨s.data.map Char.toLower⟩

/-- The pm25 rows of the `aqi_breakpoints` dictionary. -/
def pm25Breakpoints : List Bp :=
  [⟨0, 12, 0, 50⟩, ⟨12.1, 35.4, 51, 100⟩, ⟨35.5, 55.4, 101, 150⟩,
   ⟨55.5, 150.4, 151, 200⟩, ⟨150.5, 250.4, 201, 300⟩, ⟨250.5, 500.4, 301, 500⟩]

/-- The pm10 rows of the `aqi_breakpoints` dictionary. -/
def pm10Breakpoints : List Bp :=
  [⟨0, 54, 0, 50⟩, ⟨55, 154, 51, 100⟩, ⟨155, 254, 101, 150⟩,
   ⟨255, 354, 151, 200⟩, ⟨355, 424, 201, 300⟩, ⟨425, 604, 301, 500⟩]

/-- The o3 rows of the `aqi_breakpoints` dictionary (8-hour average). -/
def o3Breakpoints : List Bp :=
  [⟨0, 0.054, 0, 50⟩, ⟨0.055, 0.070, 51, 100⟩, ⟨0.071, 0.085, 101, 150⟩,
   ⟨0.086, 0.105, 151, 200⟩, ⟨0.106, 0.200, 201, 300⟩]

/-- The no2 rows of the `aqi_breakpoints` dictionary (1-hour average). -/
def no2Breakpoints : List Bp :=
  [⟨0, 53, 0, 50⟩, ⟨54, 100, 51, 100⟩, ⟨101, 360, 101, 150⟩,
   ⟨361, 649, 151, 200⟩, ⟨650, 1249, 201, 300⟩, ⟨1250, 2049, 301, 500⟩]

/-- The so2 rows of the `aqi_breakpoints` dictionary (1-hour average). -/
def so2Breakpoints : List Bp :=
  [⟨0, 35, 0, 50⟩, ⟨36, 75, 51, 100⟩, ⟨76, 185, 101, 150⟩,
   ⟨186, 304, 151, 200⟩, ⟨305, 604, 201, 300⟩, ⟨605, 1004, 301, 500⟩]

/-- The co rows of the `aqi_breakpoints` dictionary (8-hour average). -/
def coBreakpoints : List Bp :=
  [⟨0, 4.4, 0, 50⟩, ⟨4.5, 9.4, 51, 100⟩, ⟨9.5, 12.4, 101, 150⟩,
   ⟨12.5, 15.4, 151, 200⟩, ⟨15.5, 30.4, 201, 300⟩, ⟨30.5, 50.4, 301, 500⟩]

/-- The `aqi_breakpoints` dictionary of `EPAAirNowService.__init__`. -/
def aqi_breakpoints : List (String × List Bp) :=
  [("pm25", pm25Breakpoints), ("pm10", pm10Breakpoints), ("o3", o3Breakpoints),
   ("no2", no2Breakpoints), ("so2", so2Breakpoints), ("co", coBreakpoints)]

/-- The interpolation expression of `calculate_aqi`:
`((aqi_high - aqi_low) / (bp_high - bp_low)) * (concentration - bp_low) + aqi_low`. -/
def bandInterp (b : Bp) (c : ℚ) : ℚ :=
  ((b.ihi : ℚ) - b.ilo) / (b.hi - b.lo) * (c - b.lo) + b.ilo

/-- The breakpoint loop of `calculate_aqi`: return the rounded interpolation of
the first band whose range contains the concentration. -/
def findBandAqi : List Bp → ℚ → Option ℤ
  | [], _ => none
  | b :: rest, c =>
      if b.lo ≤ c ∧ c ≤ b.hi then some (pyRound (bandInterp b c))
      else findBandAqi rest c

/-- The `bp_high` of the last breakpoint row, `breakpoints[-1][1]`. -/
def lastBpHigh (bps : List Bp) : ℚ :=
  ((bps.getLast?).map Bp.hi).getD 0

/-- EPAAirNowService.calculate_aqi: unknown pollutants return 0; otherwise scan
the breakpoint bands, returning 500 above the top band and 0 when no band
matches. -/
def calculate_aqi (pollutant : String) (concentration : ℚ) : ℤ :=
  match aqi_breakpoints.lookup (pyLower pollutant) with
  | none => 0
  | some breakpoints =>
      match findBandAqi breakpoints concentration with
      | some v => v
      | none => if lastBpHigh breakpoints < concentration then 500 else 0

theorem bandInterp_bounds (b : Bp) (hlt : b.lo < b.hi) (hii : b.ilo ≤ b.ihi)
    {c : ℚ} (h1 : b.lo ≤ c) (h2 : c ≤ b.hi) :
    (b.ilo : ℚ) ≤ bandInterp b c ∧ bandInterp b c ≤ (b.ihi : ℚ) := by
  have hs : (0 : ℚ) ≤ ((b.ihi : ℚ) - b.ilo) / (b.hi - b.lo) :=
    div_nonneg (by exact_mod_cast sub_nonneg.mpr hii) (by linarith)
  constructor
  · have : (0 : ℚ) ≤ ((b.ihi : ℚ) - b.ilo) / (b.hi - b.lo) * (c - b.lo) :=
      mul_nonneg hs (by linarith)
    unfold bandInterp; linarith
  · have h3 : ((b.ihi : ℚ) - b.ilo) / (b.hi - b.lo) * (c - b.lo)
        ≤ ((b.ihi : ℚ) - b.ilo) / (b.hi - b.lo) * (b.hi - b.lo) :=
      mul_le_mul_of_nonneg_left (by linarith) hs
    have h4 : ((b.ihi : ℚ) - b.ilo) / (b.hi - b.lo) * (b.hi - b.lo)
        = (b.ihi : ℚ) - b.ilo := div_mul_cancel₀ _ (by linarith)
    unfold bandInterp; linarith

theorem bandInterp_mono (b : Bp) (hlt : b.lo < b.hi) (hii : b.ilo ≤ b.ihi)
    {c1 c2 : ℚ} (h : c1 ≤ c2) : bandInterp b c1 ≤ bandInterp b c2 := by
  have hs : (0 : ℚ) ≤ ((b.ihi : ℚ) - b.ilo) / (b.hi - b.lo) :=
    div_nonneg (by exact_mod_cast sub_nonneg.mpr hii) (by linarith)
  have := mul_le_mul_of_nonneg_left (sub_le_sub_right h b.lo) hs
  unfold bandInterp; linarith

theorem pm25_eval (c : ℚ) : calculate_aqi "pm25" c =
    match findBandAqi pm25Breakpoints c with
    | some v => v
    | none => if lastBpHigh pm25Breakpoints < c then 500 else 0 := by
  unfold calculate_aqi
  rw [show aqi_breakpoints.lookup (pyLower "pm25") = some pm25Breakpoints from rfl]

theorem pm25_row1_eq {c : ℚ} (h1 : 0 ≤ c) (h2 : c ≤ 12) :
    calculate_aqi "pm25" c = pyRound (bandInterp ⟨0, 12, 0, 50⟩ c) := by
  rw [pm25_eval]
  have e : findBandAqi pm25Breakpoints c
      = some (pyRound (bandInterp ⟨0, 12, 0, 50⟩ c)) := by
    simp only [pm25Breakpoints, findBandAqi]
    split_ifs with g1 <;> first
      | rfl
      | exact absurd ⟨h1, h2⟩ g1
  rw [e]

theorem pm25_row2_eq {c : ℚ} (h1 : 12.1 ≤ c) (h2 : c ≤ 35.4) :
    calculate_aqi "pm25" c = pyRound (bandInterp ⟨12.1, 35.4, 51, 100⟩ c) := by
  rw [pm25_eval]
  have e : findBandAqi pm25Breakpoints c
      = some (pyRound (bandInterp ⟨12.1, 35.4, 51, 100⟩ c)) := by
    simp only [pm25Breakpoints, findBandAqi]
    split_ifs with g1 g2 <;> first
      | rfl
      | exact absurd ⟨h1, h2⟩ g2
      | exact absurd (h1.trans g1.2) (by norm_num)
  rw [e]

theorem pm25_row3_eq {c : ℚ} (h1 : 35.5 ≤ c) (h2 : c ≤ 55.4) :
    calculate_aqi "pm25" c = pyRound (bandInterp ⟨35.5, 55.4, 101, 150⟩ c) := by
  rw [pm25_eval]
  have e : findBandAqi pm25Breakpoints c
      = some (pyRound (bandInterp ⟨35.5, 55.4, 101, 150⟩ c)) := by
    simp only [pm25Breakpoints, findBandAqi]
    split_ifs with g1 g2 g3 <;> first
      | rfl
      | exact absurd ⟨h1, h2⟩ g3
      | exact absurd (h1.trans g1.2) (by norm_num)
      | exact absurd (h1.trans g2.2) (by norm_num)
  rw [e]

theorem pm25_row4_eq {c : ℚ} (h1 : 55.5 ≤ c) (h2 : c ≤ 150.4) :
    calculate_aqi "pm25" c = pyRound (bandInterp ⟨55.5, 150.4, 151, 200⟩ c) := by
  rw [pm25_eval]
  have e : findBandAqi pm25Breakpoints c
      = some (pyRound (bandInterp ⟨55.5, 150.4, 151, 200⟩ c)) := by
    simp only [pm25Breakpoints, findBandAqi]
    split_ifs with g1 g2 g3 g4 <;> first
      | rfl
      | exact absurd ⟨h1, h2⟩ g4
      | exact absurd (h1.trans g1.2) (by norm_num)
      | exact absurd (h1.trans g2.2) (by norm_num)
      | exact absurd (h1.trans g3.2) (by norm_num)
  rw [e]

theorem pm25_row5_eq {c : ℚ} (h1 : 150.5 ≤ c) (h2 : c ≤ 250.4) :
    calculate_aqi "pm25" c = pyRound (bandInterp ⟨150.5, 250.4, 201, 300⟩ c) := by
  rw [pm25_eval]
  have e : findBandAqi pm25Breakpoints c
      = some (pyRound (bandInterp ⟨150.5, 250.4, 201, 300⟩ c)) := by
    simp only [pm25Breakpoints, findBandAqi]
    split_ifs with g1 g2 g3 g4 g5 <;> first
      | rfl
      | exact absurd ⟨h1, h2⟩ g5
      | exact absurd (h1.trans g1.2) (by norm_num)
      | exact absurd (h1.trans g2.2) (by norm_num)
      | exact absurd (h1.trans g3.2) (by norm_num)
      | exact absurd (h1.trans g4.2) (by norm_num)
  rw [e]

theorem pm25_row6_eq {c : ℚ} (h1 : 250.5 ≤ c) (h2 : c ≤ 500.4) :
    calculate_aqi "pm25" c = pyRound (bandInterp ⟨250.5, 500.4, 301, 500⟩ c) := by
  rw [pm25_eval]
  have e : findBandAqi pm25Breakpoints c
      = some (pyRound (bandInterp ⟨250.5, 500.4, 301, 500⟩ c)) := by
    simp only [pm25Breakpoints, findBandAqi]
    split_ifs with g1 g2 g3 g4 g5 g6 <;> first
      | rfl
      | exact absurd ⟨h1, h2⟩ g6
      | exact absurd (h1.trans g1.2) (by norm_num)
      | exact absurd (h1.trans g2.2) (by norm_num)
      | exact absurd (h1.trans g3.2) (by norm_num)
      | exact absurd (h1.trans g4.2) (by norm_num)
      | exact absurd (h1.trans g5.2) (by norm_num)
  rw [e]

theorem pm25_top_eq {c : ℚ} (h : 500.4 < c) : calculate_aqi "pm25" c = 500 := by
  rw [pm25_eval]
  have e : findBandAqi pm25Breakpoints c = none := by
    simp only [pm25Breakpoints, findBandAqi]
    split_ifs with g1 g2 g3 g4 g5 g6 <;> first
      | rfl
      | exact absurd (h.trans_le g1.2) (by norm_num)
      | exact absurd (h.trans_le g2.2) (by norm_num)
      | exact absurd (h.trans_le g3.2) (by norm_num)
      | exact absurd (h.trans_le g4.2) (by norm_num)
      | exact absurd (h.trans_le g5.2) (by norm_num)
      | exact absurd (h.trans_le g6.2) (by norm_num)
  rw [e]
  rw [show lastBpHigh pm25Breakpoints = 500.4 from rfl, if_pos h]

theorem pm25_row1_bounds {c : ℚ} (h1 : 0 ≤ c) (h2 : c ≤ 12) :
    0 ≤ calculate_aqi "pm25" c ∧ calculate_aqi "pm25" c ≤ 50 := by
  rw [pm25_row1_eq h1 h2]
  have hb := bandInterp_bounds ⟨0, 12, 0, 50⟩ (by norm_num) (by norm_num) h1 h2
  exact ⟨int_le_pyRound hb.1, pyRound_le_int hb.2⟩

theorem pm25_row2_bounds {c : ℚ} (h1 : 12.1 ≤ c) (h2 : c ≤ 35.4) :
    51 ≤ calculate_aqi "pm25" c ∧ calculate_aqi "pm25" c ≤ 100 := by
  rw [pm25_row2_eq h1 h2]
  have hb := bandInterp_bounds ⟨12.1, 35.4, 51, 100⟩ (by norm_num) (by norm_num) h1 h2
  exact ⟨int_le_pyRound hb.1, pyRound_le_int hb.2⟩

theorem pm25_row3_bounds {c : ℚ} (h1 : 35.5 ≤ c) (h2 : c ≤ 55.4) :
    101 ≤ calculate_aqi "pm25" c ∧ calculate_aqi "pm25" c ≤ 150 := by
  rw [pm25_row3_eq h1 h2]
  have hb := bandInterp_bounds ⟨35.5, 55.4, 101, 150⟩ (by norm_num) (by norm_num) h1 h2
  exact ⟨int_le_pyRound hb.1, pyRound_le_int hb.2⟩

theorem pm25_row4_bounds {c : ℚ} (h1 : 55.5 ≤ c) (h2 : c ≤ 150.4) :
    151 ≤ calculate_aqi "pm25" c ∧ calculate_aqi "pm25" c ≤ 200 := by
  rw [pm25_row4_eq h1 h2]
  have hb := bandInterp_bounds ⟨55.5, 150.4, 151, 200⟩ (by norm_num) (by norm_num) h1 h2
  exact ⟨int_le_pyRound hb.1, pyRound_le_int hb.2⟩

theorem pm25_row5_bounds {c : ℚ} (h1 : 150.5 ≤ c) (h2 : c ≤ 250.4) :
    201 ≤ calculate_aqi "pm25" c ∧ calculate_aqi "pm25" c ≤ 300 := by
  rw [pm25_row5_eq h1 h2]
  have hb := bandInterp_bounds ⟨150.5, 250.4, 201, 300⟩ (by norm_num) (by norm_num) h1 h2
  exact ⟨int_le_pyRound hb.1, pyRound_le_int hb.2⟩

theorem pm25_row6_bounds {c : ℚ} (h1 : 250.5 ≤ c) (h2 : c ≤ 500.4) :
    301 ≤ calculate_aqi "pm25" c ∧ calculate_aqi "pm25" c ≤ 500 := by
  rw [pm25_row6_eq h1 h2]
  have hb := bandInterp_bounds ⟨250.5, 500.4, 301, 500⟩ (by norm_num) (by norm_num) h1 h2
  exact ⟨int_le_pyRound hb.1, pyRound_le_int hb.2⟩

/-- Concentrations covered by the pm25 breakpoint bands or lying above the top
band.  The open gaps between consecutive bands, such as `12 < c < 12.1`, are
excluded: there `calculate_aqi` falls through the loop and returns 0. -/
def Pm25Covered (c : ℚ) : Prop :=
  (0 ≤ c ∧ c ≤ 12) ∨ (12.1 ≤ c ∧ c ≤ 35.4) ∨ (35.5 ≤ c ∧ c ≤ 55.4) ∨
  (55.5 ≤ c ∧ c ≤ 150.4) ∨ (150.5 ≤ c ∧ c ≤ 250.4) ∨
  (250.5 ≤ c ∧ c ≤ 500.4) ∨ 500.4 < c

/-- C4, counterexample: the pm25 sub-index is not monotone on all of `c ≥ 0`.
At the gap between the first two breakpoint rows the loop of `calculate_aqi`
matches no band and the function falls through to 0: concentration 12 maps to
AQI 50 while the larger concentration 12.05 maps to AQI 0. -/
theorem pm25_aqi_not_monotone_at_gap :
    (0 : ℚ) ≤ 12 ∧ (12 : ℚ) ≤ 12.05 ∧
    ¬ calculate_aqi "pm25" 12 ≤ calculate_aqi "pm25" 12.05 := by
  refine ⟨by norm_num, by norm_num, ?_⟩
  have e1 : calculate_aqi "pm25" 12 = 50 := by
    rw [pm25_row1_eq (by norm_num) (by norm_num)]
    rw [show bandInterp ⟨0, 12, 0, 50⟩ 12 = ((50 : ℤ) : ℚ) by
      unfold bandInterp; norm_num]
    exact pyRound_intCast 50
  have e2 : calculate_aqi "pm25" 12.05 = 0 := by
    rw [pm25_eval]
    have e : findBandAqi pm25Breakpoints (12.05 : ℚ) = none := by
      simp only [pm25Breakpoints, findBandAqi]
      norm_num
    rw [e, show lastBpHigh pm25Breakpoints = 500.4 from rfl]
    norm_num
  rw [e1, e2]
  norm_num

set_option maxHeartbeats 4000000 in
/-- C4 (amended): for concentrations lying inside one of the pm25 breakpoint
bands or above the top band, the pm25 sub-index of `calculate_aqi` is
monotone non-decreasing; monotonicity fails only at the inter-band gap inputs,
where the function returns 0. -/
theorem pm25_aqi_monotone_on_covered {c1 c2 : ℚ}
    (hv1 : Pm25Covered c1) (hv2 : Pm25Covered c2) (hle : c1 ≤ c2) :
    calculate_aqi "pm25" c1 ≤ calculate_aqi "pm25" c2 := by
  rcases hv1 with ⟨a1, b1⟩ | ⟨a1, b1⟩ | ⟨a1, b1⟩ | ⟨a1, b1⟩ | ⟨a1, b1⟩ | ⟨a1, b1⟩ | a1 <;>
    rcases hv2 with ⟨a2, b2⟩ | ⟨a2, b2⟩ | ⟨a2, b2⟩ | ⟨a2, b2⟩ | ⟨a2, b2⟩ | ⟨a2, b2⟩ | a2 <;>
    first
      | (refine absurd (le_trans a1 (le_trans hle b2)) ?_; norm_num; done)
      | (refine absurd (lt_of_lt_of_le a1 (le_trans hle b2)) ?_; norm_num; done)
      | (rw [pm25_row1_eq a1 b1, pm25_row1_eq a2 b2]
         exact pyRound_mono (bandInterp_mono _ (by norm_num) (by norm_num) hle))
      | (rw [pm25_row2_eq a1 b1, pm25_row2_eq a2 b2]
         exact pyRound_mono (bandInterp_mono _ (by norm_num) (by norm_num) hle))
      | (rw [pm25_row3_eq a1 b1, pm25_row3_eq a2 b2]
         exact pyRound_mono (bandInterp_mono _ (by norm_num) (by norm_num) hle))
      | (rw [pm25_row4_eq a1 b1, pm25_row4_eq a2 b2]
         exact pyRound_mono (bandInterp_mono _ (by norm_num) (by norm_num) hle))
      | (rw [pm25_row5_eq a1 b1, pm25_row5_eq a2 b2]
         exact pyRound_mono (bandInterp_mono _ (by norm_num) (by norm_num) hle))
      | (rw [pm25_row6_eq a1 b1, pm25_row6_eq a2 b2]
         exact pyRound_mono (bandInterp_mono _ (by norm_num) (by norm_num) hle))
      | rw [pm25_top_eq a1, pm25_top_eq a2]
      | (have u := (pm25_row1_bounds a1 b1).2
         first
          | (have l := (pm25_row2_bounds a2 b2).1; omega)
          | (have l := (pm25_row3_bounds a2 b2).1; omega)
          | (have l := (pm25_row4_bounds a2 b2).1; omega)
          | (have l := (pm25_row5_bounds a2 b2).1; omega)
          | (have l := (pm25_row6_bounds a2 b2).1; omega)
          | (rw [pm25_top_eq a2]; omega))
      | (have u := (pm25_row2_bounds a1 b1).2
         first
          | (have l := (pm25_row3_bounds a2 b2).1; omega)
          | (have l := (pm25_row4_bounds a2 b2).1; omega)
          | (have l := (pm25_row5_bounds a2 b2).1; omega)
          | (have l := (pm25_row6_bounds a2 b2).1; omega)
          | (rw [pm25_top_eq a2]; omega))
      | (have u := (pm25_row3_bounds a1 b1).2
         first
          | (have l := (pm25_row4_bounds a2 b2).1; omega)
          | (have l := (pm25_row5_bounds a2 b2).1; omega)
          | (have l := (pm25_row6_bounds a2 b2).1; omega)
          | (rw [pm25_top_eq a2]; omega))
      | (have u := (pm25_row4_bounds a1 b1).2
         first
          | (have l := (pm25_row5_bounds a2 b2).1; omega)
          | (have l := (pm25_row6_bounds a2 b2).1; omega)
          | (rw [pm25_top_eq a2]; omega))
      | (have u := (pm25_row5_bounds a1 b1).2
         first
          | (have l := (pm25_row6_bounds a2 b2).1; omega)
          | (rw [pm25_top_eq a2]; omega))
      | (have u := (pm25_row6_bounds a1 b1).2
         rw [pm25_top_eq a2]; omega)

/-- Witness for the amended C4 theorem at concentrations 10 and 100. -/
theorem pm25_aqi_monotone_on_covered_witness :
    Pm25Covered 10 ∧ Pm25Covered 100 ∧ (10 : ℚ) ≤ 100 ∧
    calculate_aqi "pm25" 10 ≤ calculate_aqi "pm25" 100 := by
  have hv1 : Pm25Covered 10 := Or.inl (by norm_num)
  have hv2 : Pm25Covered 100 := by
    unfold Pm25Covered; norm_num
  exact ⟨hv1, hv2, by norm_num, pm25_aqi_monotone_on_covered hv1 hv2 (by norm_num)⟩

/-- C5, counterexample: for a pollutant identifier outside the supported set
the converter returns the numeric sub-index 0, not an absent value. -/
theorem unknown_pollutant_yields_zero_counterexample :
    aqi_breakpoints.lookup (pyLower "co2") = none ∧ calculate_aqi "co2" 7 = 0 :=
  ⟨rfl, rfl⟩

/-- C5 (amended): `calculate_aqi` has no absent return value; for every
pollutant identifier outside the breakpoint table and every concentration it
returns the numeric sub-index 0, indistinguishable from a genuine AQI of 0. -/
theorem unknown_pollutant_yields_zero (p : String) (c : ℚ)
    (h : aqi_breakpoints.lookup (pyLower p) = none) : calculate_aqi p c = 0 := by
  unfold calculate_aqi
  rw [h]

/-- Witness for the amended C5 theorem at pollutant identifier nox. -/
theorem unknown_pollutant_yields_zero_witness :
    aqi_breakpoints.lookup (pyLower "nox") = none ∧ calculate_aqi "nox" 3 = 0 :=
  ⟨rfl, unknown_pollutant_yields_zero "nox" 3 rfl⟩

/-!
Composite AQI selection, from `backend_backup/app/services/openaq_service.py`
(`_calculate_aqi_from_pollutants` and its per-pollutant converters) and the
measurement-based estimators `_estimate_aqi_from_measurements`
(`backend/app/services/enhanced_air_quality_service.py`) and `_estimate_aqi`
(`backend/app/services/weather_enhanced_aq_service.py`).
-/

/-- The `Pollutants` model of `backend_backup/app/models/__init__.py`:
per-pollutant concentrations, defaulting to 0. -/
structure Pollutants where
  pm25 : ℚ
  pm10 : ℚ
  o3 : ℚ
  no2 : ℚ
  so2 : ℚ
  co : ℚ
deriving DecidableEq

/-- OpenAQService._pm25_to_aqi. -/
def pm25_to_aqi (pm25 : ℚ) : ℤ :=
  if pm25 ≤ 12 then pyInt (pm25 * 50 / 12)
  else if pm25 ≤ 35.4 then pyInt (50 + (pm25 - 12) * 50 / (35.4 - 12))
  else if pm25 ≤ 55.4 then pyInt (100 + (pm25 - 35.4) * 50 / (55.4 - 35.4))
  else if pm25 ≤ 150.4 then pyInt (150 + (pm25 - 55.4) * 50 / (150.4 - 55.4))
  else if pm25 ≤ 250.4 then pyInt (200 + (pm25 - 150.4) * 100 / (250.4 - 150.4))
  else 300

/-- OpenAQService._pm10_to_aqi. -/
def pm10_to_aqi (pm10 : ℚ) : ℤ :=
  if pm10 ≤ 54 then pyInt (pm10 * 50 / 54)
  else if pm10 ≤ 154 then pyInt (50 + (pm10 - 54) * 50 / (154 - 54))
  else if pm10 ≤ 254 then pyInt (100 + (pm10 - 154) * 50 / (254 - 154))
  else if pm10 ≤ 354 then pyInt (150 + (pm10 - 254) * 50 / (354 - 254))
  else 200

/-- OpenAQService._ozone_to_aqi, taking a ppm concentration. -/
def ozone_to_aqi (ozone_ppm : ℚ) : ℤ :=
  if ozone_ppm ≤ 0.054 then pyInt (ozone_ppm * 50 / 0.054)
  else if ozone_ppm ≤ 0.070 then pyInt (50 + (ozone_ppm - 0.054) * 50 / (0.070 - 0.054))
  else if ozone_ppm ≤ 0.085 then pyInt (100 + (ozone_ppm - 0.070) * 50 / (0.085 - 0.070))
  else if ozone_ppm ≤ 0.105 then pyInt (150 + (ozone_ppm - 0.085) * 50 / (0.105 - 0.085))
  else 200

/-- OpenAQService._no2_to_aqi. -/
def no2_to_aqi (no2 : ℚ) : ℤ :=
  if no2 ≤ 53 then pyInt (no2 * 50 / 53)
  else if no2 ≤ 100 then pyInt (50 + (no2 - 53) * 50 / (100 - 53))
  else if no2 ≤ 360 then pyInt (100 + (no2 - 100) * 100 / (360 - 100))
  else 200

/-- OpenAQService._calculate_aqi_from_pollutants: build the list of sub-indices
of the pollutants with positive concentration (converting o3 to ppm first) and
take its maximum, defaulting to 50 when the list is empty. -/
def calculate_aqi_from_pollutants (p : Pollutants) : ℤ :=
  let aqi_values :=
    (if p.pm25 > 0 then [pm25_to_aqi p.pm25] else []) ++
    (if p.pm10 > 0 then [pm10_to_aqi p.pm10] else []) ++
    (if p.o3 > 0 then [ozone_to_aqi (p.o3 / 1960)] else []) ++
    (if p.no2 > 0 then [no2_to_aqi p.no2] else [])
  match aqi_values.max? with
  | some m => m
  | none => 50

/-- A single entry of a measurement list: the `parameter` and `value` fields
read by the estimators. -/
structure Measurement where
  parameter : String
  value : ℚ
deriving DecidableEq

/-- The simplified pm25 sub-index formula shared by
`_estimate_aqi_from_measurements` and `_estimate_aqi`. -/
def pm25SimpleAqi (value : ℚ) : ℚ :=
  if value ≤ 12 then value * 50 / 12
  else if value ≤ 35.4 then 50 + (value - 12) * 50 / 23.4
  else if value ≤ 55.4 then 100 + (value - 35.4) * 50 / 20
  else min 500 (150 + (value - 55.4) * 50 / 100)

/-- The simplified pm10 sub-index formula shared by
`_estimate_aqi_from_measurements` and `_estimate_aqi`. -/
def pm10SimpleAqi (value : ℚ) : ℚ :=
  if value ≤ 54 then value * 50 / 54
  else if value ≤ 154 then 50 + (value - 54) * 50 / 100
  else min 500 (100 + (value - 154) * 50 / 100)

/-- The measurement loop shared by `_estimate_aqi_from_measurements` and
`_estimate_aqi`: collect the sub-indices of the pm25 and pm10 measurements
with positive value, in list order. -/
def collectPmAqis : List Measurement → List ℚ
  | [] => []
  | m :: rest =>
      if pyLower m.parameter = "pm25" ∧ m.value > 0 then
        pm25SimpleAqi m.value :: collectPmAqis rest
      else if pyLower m.parameter = "pm10" ∧ m.value > 0 then
        pm10SimpleAqi m.value :: collectPmAqis rest
      else collectPmAqis rest

/-- EnhancedAirQualityService._estimate_aqi_from_measurements: maximum of the
collected pm sub-indices, or absent when none were collected. -/
def estimate_aqi_from_measurements (measurements : List Measurement) : Option ℚ :=
  (collectPmAqis measurements).max?

/-- WeatherEnhancedAirQualityService._estimate_aqi, identical in logic to
`_estimate_aqi_from_measurements`. -/
def estimate_aqi (measurements : List Measurement) : Option ℚ :=
  (collectPmAqis measurements).max?

/-- A measurement the estimators use: parameter lowercases to pm25 or pm10 and
the value is positive. -/
def UsablePm (m : Measurement) : Prop :=
  (pyLower m.parameter = "pm25" ∨ pyLower m.parameter = "pm10") ∧ m.value > 0

instance (m : Measurement) : Decidable (UsablePm m) := by
  unfold UsablePm; infer_instance

theorem collectPmAqis_filter (ms : List Measurement) :
    collectPmAqis ms = collectPmAqis (ms.filter fun m => decide (UsablePm m)) := by
  induction ms with
  | nil => rfl
  | cons m rest ih =>
      by_cases h25 : pyLower m.parameter = "pm25" ∧ m.value > 0
      · have hu : UsablePm m := ⟨Or.inl h25.1, h25.2⟩
        rw [show (m :: rest).filter (fun m => decide (UsablePm m))
            = m :: rest.filter (fun m => decide (UsablePm m)) by
          simp [List.filter, hu]]
        rw [collectPmAqis, collectPmAqis, if_pos h25, if_pos h25, ih]
      · by_cases h10 : pyLower m.parameter = "pm10" ∧ m.value > 0
        · have hu : UsablePm m := ⟨Or.inr h10.1, h10.2⟩
          rw [show (m :: rest).filter (fun m => decide (UsablePm m))
              = m :: rest.filter (fun m => decide (UsablePm m)) by
            simp [List.filter, hu]]
          rw [collectPmAqis, collectPmAqis, if_neg h25, if_neg h25,
            if_pos h10, if_pos h10, ih]
        · have hu : ¬ UsablePm m := by
            rintro ⟨h1 | h1, h2⟩
            · exact h25 ⟨h1, h2⟩
            · exact h10 ⟨h1, h2⟩
          rw [show (m :: rest).filter (fun m => decide (UsablePm m))
              = rest.filter (fun m => decide (UsablePm m)) by
            simp [List.filter, hu]]
          rw [collectPmAqis, if_neg h25, if_neg h10, ih]

theorem collectPmAqis_nil_of_no_usable {ms : List Measurement}
    (h : ∀ m ∈ ms, ¬ UsablePm m) : collectPmAqis ms = [] := by
  rw [collectPmAqis_filter]
  have e : ms.filter (fun m => decide (UsablePm m)) = [] := by
    rw [List.filter_eq_nil_iff]
    intro m hm
    simpa using h m hm
  rw [e, collectPmAqis]

/-- C1, counterexample: with every pollutant concentration equal to 0 no
sub-index is computable, yet `_calculate_aqi_from_pollutants` returns the
numeric default AQI 50 instead of signalling an absent result. -/
theorem composite_selector_returns_default_50 :
    calculate_aqi_from_pollutants ⟨0, 0, 0, 0, 0, 0⟩ = 50 := by
  unfold calculate_aqi_from_pollutants
  norm_num

/-- C1 (amended): the measurement-based estimators `_estimate_aqi` and
`_estimate_aqi_from_measurements` do signal an absent result whenever no
measurement has a usable pm value; the backup composite selector
`_calculate_aqi_from_pollutants` instead returns the numeric default 50. -/
theorem estimators_absent_without_usable_values (ms : List Measurement)
    (h : ∀ m ∈ ms, ¬ UsablePm m) :
    estimate_aqi ms = none ∧ estimate_aqi_from_measurements ms = none := by
  unfold estimate_aqi estimate_aqi_from_measurements
  rw [collectPmAqis_nil_of_no_usable h]
  exact ⟨rfl, rfl⟩

/-- Witness for the amended C1 theorem on a list holding one o3 measurement. -/
theorem estimators_absent_without_usable_values_witness :
    estimate_aqi [⟨"o3", 80⟩] = none ∧
    estimate_aqi_from_measurements [⟨"o3", 80⟩] = none := by
  refine estimators_absent_without_usable_values _ ?_
  intro m hm
  rw [List.mem_singleton] at hm
  subst hm
  rintro ⟨h1 | h1, _⟩ <;> exact absurd h1 (by decide)

/-- C10 (confirmed): the measurement-based ground estimate is determined
solely by the measurements whose parameter lowercases to pm25 or pm10 with
value greater than 0 — filtering out all other measurements never changes the
result — and a list without any such measurement yields an absent estimate;
this holds for both `_estimate_aqi_from_measurements` and `_estimate_aqi`. -/
theorem estimate_determined_by_positive_pm_measurements :
    (∀ ms : List Measurement,
      estimate_aqi_from_measurements ms
        = estimate_aqi_from_measurements (ms.filter fun m => decide (UsablePm m)) ∧
      estimate_aqi ms = estimate_aqi (ms.filter fun m => decide (UsablePm m))) ∧
    (∀ ms : List Measurement, (∀ m ∈ ms, ¬ UsablePm m) →
      estimate_aqi_from_measurements ms = none ∧ estimate_aqi ms = none) := by
  constructor
  · intro ms
    unfold estimate_aqi estimate_aqi_from_measurements
    rw [← collectPmAqis_filter]
    exact ⟨rfl, rfl⟩
  · intro ms h
    unfold estimate_aqi estimate_aqi_from_measurements
    rw [collectPmAqis_nil_of_no_usable h]
    exact ⟨rfl, rfl⟩

/-- Witness for the C10 theorem on a list holding one no2 and one pm25
measurement. -/
theorem estimate_determined_by_positive_pm_measurements_witness :
    (estimate_aqi_from_measurements [⟨"no2", 40⟩, ⟨"pm25", 10⟩]
      = estimate_aqi_from_measurements
          ([⟨"no2", 40⟩, ⟨"pm25", 10⟩].filter fun m => decide (UsablePm m))) ∧
    (estimate_aqi_from_measurements [⟨"no2", 40⟩] = none ∧
      estimate_aqi [⟨"no2", 40⟩] = none) := by
  constructor
  · exact (estimate_determined_by_positive_pm_measurements.1
      [⟨"no2", 40⟩, ⟨"pm25", 10⟩]).1
  · refine estimate_determined_by_positive_pm_measurements.2 _ ?_
    intro m hm
    rw [List.mem_singleton] at hm
    subst hm
    rintro ⟨h1 | h1, _⟩ <;> exact absurd h1 (by decide)

/-!
Weather impact modifiers, from `backend/app/services/weather_service.py`,
`WeatherService._calculate_air_quality_modifiers`.
-/

/-- The fields of the provider weather dict that
`_calculate_air_quality_modifiers` reads: `wind.speed`, `main.humidity`,
`main.pressure`, `main.temp`, `rain.1h` and `snow.1h`. -/
structure OwmWeather where
  wind_speed : ℚ
  humidity : ℚ
  pressure : ℚ
  temp : ℚ
  rain1h : ℚ
  snow1h : ℚ
deriving DecidableEq

/-- The result dict of `_calculate_air_quality_modifiers`. -/
structure AirQualityModifiers where
  aqi_modifier : ℚ
  dispersion_factor : ℚ
  pressure_factor : ℚ
  humidity_factor : ℚ
  precipitation_factor : ℚ
deriving DecidableEq

/-- WeatherService._calculate_air_quality_modifiers: the four band factors and
their product, mirroring the if/elif chains of the source. -/
def calculate_air_quality_modifiers (w : OwmWeather) : AirQualityModifiers :=
  let wind_speed := w.wind_speed
  let humidity := w.humidity
  let pressure := w.pressure
  let precipitation := w.rain1h + w.snow1h
  let dispersion_factor : ℚ :=
    if wind_speed > 10 then 0.7
    else if wind_speed > 5 then 0.85
    else if wind_speed > 2 then 1.0
    else 1.3
  let pressure_factor : ℚ :=
    if pressure > 1020 ∧ wind_speed < 3 then 1.25
    else if pressure < 1000 then 0.9
    else 1.0
  let humidity_factor : ℚ :=
    if humidity > 80 then 1.15
    else if humidity < 30 then 0.95
    else 1.0
  let precipitation_factor : ℚ :=
    if precipitation > 1.0 then 0.6
    else if precipitation > 0.1 then 0.8
    else 1.0
  { aqi_modifier := dispersion_factor * pressure_factor * humidity_factor *
      precipitation_factor,
    dispersion_factor := dispersion_factor,
    pressure_factor := pressure_factor,
    humidity_factor := humidity_factor,
    precipitation_factor := precipitation_factor }

/-- Dispersion band factor as worded in the spec: wind speed above 10 gives
0.7, above 5 gives 0.85, above 2 gives 1.0, otherwise 1.3. -/
def specDispersionFactor (wind_speed : ℚ) : ℚ :=
  if wind_speed > 10 then 0.7
  else if wind_speed > 5 then 0.85
  else if wind_speed > 2 then 1.0
  else 1.3

/-- Pressure and inversion band factor as worded in the spec. -/
def specPressureFactor (pressure wind_speed : ℚ) : ℚ :=
  if pressure > 1020 ∧ wind_speed < 3 then 1.25
  else if pressure < 1000 then 0.9
  else 1.0

/-- Humidity band factor as worded in the spec. -/
def specHumidityFactor (humidity : ℚ) : ℚ :=
  if humidity > 80 then 1.15
  else if humidity < 30 then 0.95
  else 1.0

/-- Precipitation washout band factor as worded in the spec. -/
def specPrecipitationFactor (precipitation : ℚ) : ℚ :=
  if precipitation > 1.0 then 0.6
  else if precipitation > 0.1 then 0.8
  else 1.0

/-- C9 (confirmed): for every weather snapshot the returned `aqi_modifier` is
exactly the product of the four independent band factors at the spec
thresholds, the returned `dispersion_factor` is the wind-speed term alone, and
the concrete snapshot with wind 0, pressure 1025, humidity 50 and zero
precipitation yields the modifier 1.3 × 1.25 × 1.0 × 1.0 = 1.625. -/
theorem aqi_modifier_is_product_of_band_factors :
    (∀ w : OwmWeather,
      (calculate_air_quality_modifiers w).aqi_modifier
        = specDispersionFactor w.wind_speed
          * specPressureFactor w.pressure w.wind_speed
          * specHumidityFactor w.humidity
          * specPrecipitationFactor (w.rain1h + w.snow1h) ∧
      (calculate_air_quality_modifiers w).dispersion_factor
        = specDispersionFactor w.wind_speed) ∧
    (calculate_air_quality_modifiers ⟨0, 50, 1025, 20, 0, 0⟩).aqi_modifier
      = 1.625 := by
  constructor
  · intro w
    exact ⟨rfl, rfl⟩
  · unfold calculate_air_quality_modifiers
    norm_num

/-!
Multi-source reconciler, from
`backend/app/services/enhanced_air_quality_service.py`,
`EnhancedAirQualityService._integrate_data_sources`.  Python truthiness on the
optional float values is modelled explicitly: `None` and `0` are falsy.
-/

/-- Python truthiness of an optional float: `None` and `0` are falsy. -/
def truthy : Option ℚ → Bool
  | some v => v != 0
  | none => false

/-- The fields of `ground_data` read by the reconciler:
`summary.average_aqi` and `summary.total_stations`. -/
structure GroundSummary where
  averageAqi : Option ℚ
  totalStations : ℤ
deriving DecidableEq

/-- The `integrated_assessment` and confidence fields produced by
`_integrate_data_sources`. -/
structure IntegratedAssessment where
  base_aqi : Option ℚ
  weather_adjusted_aqi : Option ℚ
  satellite_aqi : Option ℚ
  agreement_level : Option String
  validation_status : Option String
  final_aqi : Option ℚ
  overall_confidence : String
deriving DecidableEq

/-- EnhancedAirQualityService._integrate_data_sources.  `ground` is the
optional ground dict with its summary fields, `weather` the optional weather
dict reduced to its `concentration_modifier`, `satellite` the optional
satellite dict reduced to its optional `aqi_estimate`. -/
def integrate_data_sources (ground : Option GroundSummary) (weather : Option ℚ)
    (satellite : Option (Option ℚ)) : IntegratedAssessment :=
  let base_aqi : Option ℚ :=
    match ground with
    | some g => if truthy g.averageAqi then g.averageAqi else none
    | none => none
  let weather_adjusted_aqi : Option ℚ :=
    match weather, base_aqi with
    | some m, some b => some (b * m)
    | _, _ => base_aqi
  let satellite_aqi : Option ℚ :=
    match satellite with
    | some est => if truthy est then est else none
    | none => none
  let agreement : Option (String × String) :=
    match satellite_aqi, weather_adjusted_aqi with
    | some s, some wa =>
        if wa != 0 then
          let difference := |s - wa|
          let level : String :=
            if difference < 20 then "good"
            else if difference < 40 then "moderate" else "poor"
          some (level,
            if level = "good" ∨ level = "moderate" then "validated"
            else "inconsistent")
        else none
    | _, _ => none
  let final_aqi : Option ℚ :=
    if truthy weather_adjusted_aqi then weather_adjusted_aqi
    else if truthy base_aqi then base_aqi
    else match satellite with
      | some est => if truthy est then est else none
      | none => none
  let confidence_scores : List ℚ :=
    (match ground with
     | some g => [if g.totalStations > 3 then (0.8 : ℚ) else 0.6]
     | none => []) ++
    (match weather with | some _ => [(0.9 : ℚ)] | none => []) ++
    (match satellite with | some _ => [(0.7 : ℚ)] | none => [])
  let overall_confidence : ℚ :=
    if confidence_scores.length = 0 then 0.3
    else confidence_scores.sum / confidence_scores.length
  { base_aqi := base_aqi,
    weather_adjusted_aqi := weather_adjusted_aqi,
    satellite_aqi := satellite_aqi,
    agreement_level := agreement.map Prod.fst,
    validation_status := agreement.map Prod.snd,
    final_aqi := final_aqi,
    overall_confidence :=
      if overall_confidence > 0.75 then "high"
      else if overall_confidence > 0.5 then "moderate" else "low" }

/-- The ground source estimate seen by the reconciler: the average AQI inside
the optional ground summary. -/
def groundAvgOf (ground : Option GroundSummary) : Option ℚ :=
  ground.bind GroundSummary.averageAqi

/-- The satellite source estimate seen by the reconciler: the optional
aqi_estimate inside the optional satellite dict. -/
def satEstOf (satellite : Option (Option ℚ)) : Option ℚ :=
  satellite.bind id

/-- C6, counterexample: a present ground source estimate with value 0 is
dropped by the Python truthiness checks, so the final AQI is absent although a
source estimate is present, against the claimed if-and-only-if. -/
theorem reconciler_drops_zero_ground_estimate :
    groundAvgOf (some ⟨some 0, 5⟩) = some 0 ∧
    (integrate_data_sources (some ⟨some 0, 5⟩) none none).final_aqi = none := by
  constructor
  · rfl
  · simp [integrate_data_sources, truthy]

/-- C6 (amended): when every present source value is positive, the final AQI
is present if and only if the ground average or the satellite estimate is
present, and it follows the priority chain: ground times modifier when both
ground and modifier exist, else the ground average, else the satellite
estimate.  With a present value equal to 0 the truthiness checks drop the
source and the equivalence fails. -/
theorem reconciler_priority_chain (ground : Option GroundSummary)
    (weather : Option ℚ) (satellite : Option (Option ℚ))
    (hg : ∀ a ∈ groundAvgOf ground, 0 < a)
    (hm : ∀ m ∈ weather, 0 < m)
    (hs : ∀ s ∈ satEstOf satellite, 0 < s) :
    ((integrate_data_sources ground weather satellite).final_aqi.isSome ↔
      (groundAvgOf ground).isSome ∨ (satEstOf satellite).isSome) ∧
    (∀ a ∈ groundAvgOf ground, ∀ m ∈ weather,
      (integrate_data_sources ground weather satellite).final_aqi
        = some (a * m)) ∧
    (weather = none → ∀ a ∈ groundAvgOf ground,
      (integrate_data_sources ground weather satellite).final_aqi = some a) ∧
    (groundAvgOf ground = none → ∀ s ∈ satEstOf satellite,
      (integrate_data_sources ground weather satellite).final_aqi = some s) := by
  rcases ground with _ | g
  · rcases satellite with _ | est
    · rcases weather with _ | m <;>
        simp [integrate_data_sources, truthy, groundAvgOf, satEstOf]
    · rcases est with _ | s
      · rcases weather with _ | m <;>
          simp [integrate_data_sources, truthy, groundAvgOf, satEstOf]
      · have hs' : 0 < s := hs s (by simp [satEstOf])
        rcases weather with _ | m <;>
          simp [integrate_data_sources, truthy, groundAvgOf, satEstOf,
            ne_of_gt hs']
  · rcases g with ⟨avg, stations⟩
    rcases avg with _ | a
    · rcases satellite with _ | est
      · rcases weather with _ | m <;>
          simp [integrate_data_sources, truthy, groundAvgOf, satEstOf]
      · rcases est with _ | s
        · rcases weather with _ | m <;>
            simp [integrate_data_sources, truthy, groundAvgOf, satEstOf]
        · have hs' : 0 < s := hs s (by simp [satEstOf])
          rcases weather with _ | m <;>
            simp [integrate_data_sources, truthy, groundAvgOf, satEstOf,
              ne_of_gt hs']
    · have ha : 0 < a := hg a (by simp [groundAvgOf])
      rcases weather with _ | m
      · rcases satellite with _ | est
        · simp [integrate_data_sources, truthy, groundAvgOf, satEstOf,
            ne_of_gt ha]
        · rcases est with _ | s <;>
            simp [integrate_data_sources, truthy, groundAvgOf, satEstOf,
              ne_of_gt ha]
      · have hm' : 0 < m := hm m (by simp)
        have hprod : a * m ≠ 0 := ne_of_gt (mul_pos ha hm')
        rcases satellite with _ | est
        · simp [integrate_data_sources, truthy, groundAvgOf, satEstOf,
            ne_of_gt ha, hprod]
        · rcases est with _ | s <;>
            simp [integrate_data_sources, truthy, groundAvgOf, satEstOf,
              ne_of_gt ha, hprod]

/-- Witness for the amended C6 theorem: ground average 100 with modifier 6/5
and no satellite data reconciles to the weather-adjusted value 120. -/
theorem reconciler_priority_chain_witness :
    (integrate_data_sources (some ⟨some 100, 5⟩) (some (6/5)) none).final_aqi
      = some 120 := by
  have h := (reconciler_priority_chain (some ⟨some 100, 5⟩) (some (6/5)) none
    (by intro a ha; rw [show groundAvgOf (some ⟨some 100, 5⟩) = some 100 from rfl] at ha;
        rw [Option.mem_def, Option.some_inj] at ha; rw [← ha]; norm_num)
    (by intro m hm; rw [Option.mem_def, Option.some_inj] at hm; rw [← hm]; norm_num)
    (by intro s hs; rw [show satEstOf (none : Option (Option ℚ)) = none from rfl] at hs;
        simp at hs)).2.1 100
    (by rw [Option.mem_def]; rfl) (6/5) (by rw [Option.mem_def])
  rw [h]
  norm_num

/-!
Personalized health risk classification and emergency alerts, from
`backend/app/services/health_alert_service.py`.
-/

/-- The HealthCondition enum. -/
inductive HealthCondition where
  | asthma | copd | heart_disease | diabetes | pregnancy | elderly | children
  | healthy
deriving DecidableEq

/-- The RiskLevel enum. -/
inductive RiskLevel where
  | low | moderate | high | very_high | extreme
deriving DecidableEq

/-- The HealthProfile dataclass; the string-valued fields are kept as the
strings the service compares against. -/
structure HealthProfile where
  conditions : List HealthCondition
  sensitivity_level : String
  age_group : String
  activity_level : String
  outdoor_exposure : String
deriving DecidableEq

/-- The per-condition pollutant sensitivity multipliers,
`PersonalizedHealthAlertService.condition_sensitivity`. -/
def condition_sensitivity : HealthCondition → List (String × ℚ)
  | .asthma => [("pm2_5", 2.0), ("o3", 2.5), ("no2", 2.0), ("so2", 1.8)]
  | .copd => [("pm2_5", 2.5), ("pm10", 2.0), ("o3", 2.2), ("no2", 2.0)]
  | .heart_disease => [("pm2_5", 2.0), ("pm10", 1.8), ("co", 2.5), ("no2", 1.5)]
  | .diabetes => [("pm2_5", 1.5), ("o3", 1.8), ("no2", 1.5)]
  | .pregnancy => [("pm2_5", 1.8), ("pm10", 1.5), ("co", 2.0), ("o3", 1.6)]
  | .elderly => [("pm2_5", 1.8), ("pm10", 1.5), ("o3", 1.8), ("no2", 1.5)]
  | .children => [("pm2_5", 1.6), ("o3", 2.0), ("no2", 1.8), ("so2", 1.5)]
  | .healthy => [("pm2_5", 1.0), ("pm10", 1.0), ("o3", 1.0), ("no2", 1.0),
                 ("so2", 1.0), ("co", 1.0)]

/-- The per-condition AQI thresholds of the `risk_thresholds` dictionary: the
low, moderate, high and very_high cutoffs. -/
structure RiskThresholds where
  low : ℚ
  moderate : ℚ
  high : ℚ
  very_high : ℚ
deriving DecidableEq

/-- PersonalizedHealthAlertService.risk_thresholds.  The dictionary holds no
entry for diabetes or pregnancy, although both are members of the
HealthCondition enum; a lookup for them raises KeyError, modelled as `none`. -/
def risk_thresholds : HealthCondition → Option RiskThresholds
  | .asthma => some ⟨30, 50, 100, 150⟩
  | .copd => some ⟨25, 45, 90, 130⟩
  | .heart_disease => some ⟨35, 55, 110, 160⟩
  | .elderly => some ⟨40, 60, 120, 170⟩
  | .children => some ⟨35, 55, 110, 160⟩
  | .healthy => some ⟨50, 100, 150, 200⟩
  | .diabetes => none
  | .pregnancy => none

/-- The fixed priority order of `_get_primary_health_condition`. -/
def conditionPriorityOrder : List HealthCondition :=
  [.copd, .asthma, .heart_disease, .pregnancy, .elderly, .children, .diabetes,
   .healthy]

/-- PersonalizedHealthAlertService._get_primary_health_condition: the first
condition of the priority order present in the profile, defaulting to
healthy. -/
def get_primary_health_condition (conditions : List HealthCondition) :
    HealthCondition :=
  match conditionPriorityOrder.find? (fun c => c ∈ conditions) with
  | some c => c
  | none => .healthy

/-- PersonalizedHealthAlertService._calculate_personalized_risk.  Returns the
(risk level, adjusted AQI) pair, or `none` for the uncaught KeyError raised
when the primary condition has no `risk_thresholds` entry. -/
def calculate_personalized_risk (base_aqi : ℚ) (profile : HealthProfile)
    (components : List (String × ℚ)) : Option (RiskLevel × ℚ) :=
  let primary := get_primary_health_condition profile.conditions
  let adjusted_factors :=
    components.filterMap fun pv => (condition_sensitivity primary).lookup pv.1
  let f0 : ℚ := match adjusted_factors.max? with
    | some m => m
    | none => 1.0
  let f1 : ℚ :=
    if profile.sensitivity_level = "high" then f0 * 1.2
    else if profile.sensitivity_level = "low" then f0 * 0.9
    else f0
  let f2 : ℚ := if profile.activity_level = "active" then f1 * 1.15 else f1
  let f3 : ℚ := if profile.outdoor_exposure = "high" then f2 * 1.1 else f2
  let adjusted_aqi := base_aqi * f3
  match risk_thresholds primary with
  | none => none
  | some thresholds =>
      let risk_level : RiskLevel :=
        if adjusted_aqi ≥ thresholds.very_high then
          if adjusted_aqi ≥ 300 then .extreme else .very_high
        else if adjusted_aqi ≥ thresholds.high then .high
        else if adjusted_aqi ≥ thresholds.moderate then .moderate
        else .low
      some (risk_level, adjusted_aqi)

/-- One hour of the forecast list as the alert service reads it: the
`predicted_aqi` and `components` entries of the hour dict (a missing
components key reads as the empty mapping). -/
structure AlertHourData where
  predicted_aqi : ℚ
  components : List (String × ℚ)
deriving DecidableEq

/-- A generated emergency alert, reduced to the fields the claims are about:
the matched hour index, the risk level and the urgency score. -/
structure EmergencyAlert where
  hour_index : ℕ
  risk_level : RiskLevel
  urgency_score : ℚ
deriving DecidableEq

/-- The loop body of `_check_emergency_conditions` over the first six forecast
hours: emit one alert at the first hour whose personalized risk is extreme or
whose adjusted AQI exceeds 300, then break.  `none` models the uncaught
KeyError of the risk calculation. -/
def emergencyLoop (profile : HealthProfile) :
    List AlertHourData → ℕ → Option (List EmergencyAlert)
  | [], _ => some []
  | hd :: rest, i =>
      match calculate_personalized_risk hd.predicted_aqi profile hd.components with
      | none => none
      | some (risk_level, adjusted_aqi) =>
          if risk_level = .extreme ∨ adjusted_aqi > 300 then
            some [⟨i, .extreme, 10.0⟩]
          else emergencyLoop profile rest (i + 1)

/-- PersonalizedHealthAlertService._check_emergency_conditions: scan
`forecast_data[:6]`. -/
def check_emergency_conditions (forecast_data : List AlertHourData)
    (profile : HealthProfile) : Option (List EmergencyAlert) :=
  emergencyLoop profile (forecast_data.take 6) 0

/-- The result dict of
`AdvancedForecastingService.generate_comprehensive_forecast`, reduced to the
success flag and its hourly list, which the source stores under the dict key
"forecast". -/
structure ForecastResult where
  success : Bool
  forecast : List AlertHourData
deriving DecidableEq

/-- Dict lookup of a list-valued key on the forecast result: the successful
result of `generate_comprehensive_forecast` holds its hourly list only under
the key "forecast"; `.get` on any other key returns None. -/
def ForecastResult.getListField (r : ForecastResult) (key : String) :
    Option (List AlertHourData) :=
  if key = "forecast" then some r.forecast else none

/-- The emergency-alert portion of
`PersonalizedHealthAlertService.generate_personalized_alerts`: on a successful
forecast result it reads `forecast_result.get("forecast_data", [])` and hands
that list to `_check_emergency_conditions`; on failure it returns no alerts. -/
def generate_personalized_alerts_emergency (forecast_result : ForecastResult)
    (profile : HealthProfile) : Option (List EmergencyAlert) :=
  if forecast_result.success then
    let forecast_data := (forecast_result.getListField "forecast_data").getD []
    check_emergency_conditions forecast_data profile
  else some []

/-- C3 (code bug): a profile whose only condition is pregnancy selects
pregnancy as the primary condition, whose thresholds are missing from
`risk_thresholds`, so `_calculate_personalized_risk` raises KeyError instead
of returning a (risk level, adjusted AQI) pair — here modelled as `none`. -/
theorem pregnancy_risk_lookup_fails :
    get_primary_health_condition [.pregnancy] = .pregnancy ∧
    risk_thresholds .pregnancy = none ∧
    calculate_personalized_risk 100
      ⟨[.pregnancy], "normal", "adult", "moderate", "moderate"⟩ [] = none := by
  refine ⟨rfl, rfl, ?_⟩
  rfl

/-- The profile with the single condition healthy used in the C2 evaluation. -/
def healthyProfile : HealthProfile :=
  ⟨[.healthy], "normal", "adult", "moderate", "moderate"⟩

/-- C2 (code bug): on a successful forecast whose first hour has predicted AQI
400 — extreme for every profile — `_check_emergency_conditions` itself emits
an emergency alert, but `generate_personalized_alerts` looks the forecast list
up under the key forecast_data while `generate_comprehensive_forecast` stores
it under forecast, so the pipeline always hands an empty list to the check and
emits no emergency alert. -/
theorem emergency_alert_lost_by_key_mismatch :
    check_emergency_conditions [⟨400, []⟩] healthyProfile
      = some [⟨0, .extreme, 10.0⟩] ∧
    (ForecastResult.mk true [⟨400, []⟩]).getListField "forecast_data" = none ∧
    generate_personalized_alerts_emergency ⟨true, [⟨400, []⟩]⟩ healthyProfile
      = some [] := by
  have hrisk : calculate_personalized_risk (400 : ℚ) healthyProfile []
      = some (.extreme, 400) := by
    unfold calculate_personalized_risk healthyProfile
    rw [show get_primary_health_condition [HealthCondition.healthy]
        = .healthy from rfl]
    simp [condition_sensitivity, risk_thresholds]
    norm_num
  refine ⟨?_, ?_, ?_⟩
  · unfold check_emergency_conditions
    rw [show List.take 6 [(⟨400, []⟩ : AlertHourData)] = [⟨400, []⟩] from rfl]
    rw [emergencyLoop, hrisk]
    simp
  · unfold ForecastResult.getListField
    rw [if_neg (by decide : ¬ ("forecast_data" = "forecast"))]
  · unfold generate_personalized_alerts_emergency ForecastResult.getListField
    rw [if_pos rfl, if_neg (by decide : ¬ ("forecast_data" = "forecast"))]
    rfl

/-!
Forecast projection, from `backend/app/services/forecasting_service.py`:
`_generate_weather_integrated_forecast`, `_generate_temporal_trend_forecast`
and `_calculate_weather_aqi_impact`.  Hour offsets run from 1 to the horizon.
The forecast start time enters only through the hour of day and the weekday of
each offset; a start at hour `t0.hour` on weekday `t0.weekday` puts offset `h`
at hour of day `(t0.hour + h) % 24` and weekday
`(t0.weekday + (t0.hour + h) / 24) % 7`.
-/

/-- The fields of an hourly weather forecast entry read by
`_calculate_weather_aqi_impact`. -/
structure ForecastWeatherHour where
  wind_speed : ℚ
  wind_direction : ℚ
  temperature : ℚ
  humidity : ℚ
  precipitation_chance : ℚ
deriving DecidableEq

/-- AdvancedForecastingService._calculate_weather_aqi_impact: sequential
multiplicative adjustments for wind, humidity, precipitation chance and
temperature. -/
def calculate_weather_aqi_impact (w : ForecastWeatherHour) : ℚ :=
  let m0 : ℚ := 1.0
  let m1 : ℚ :=
    if w.wind_speed > 8 then m0 * 0.8
    else if w.wind_speed > 4 then m0 * 0.9
    else if w.wind_speed < 2 then m0 * 1.3
    else m0
  let m2 : ℚ :=
    if w.humidity > 80 then m1 * 1.1
    else if w.humidity < 40 then m1 * 0.95
    else m1
  let m3 : ℚ :=
    if w.precipitation_chance > 70 then m2 * 0.7
    else if w.precipitation_chance > 30 then m2 * 0.85
    else m2
  if w.temperature > 30 then m3 * 1.05 else m3

/-- A weather-integrated forecast point, reduced to the hour offset, the
stored (one-decimal rounded) predicted AQI and the stored (two-decimal
rounded) confidence. -/
structure WiForecastPoint where
  hour_ahead : ℕ
  predicted_aqi : ℚ
  confidence : ℚ
deriving DecidableEq

/-- The body of the hour loop of `_generate_weather_integrated_forecast`: for
hours covered by the weather forecast, baseline times weather impact times the
trend factor `1 + 0.005·hour` with confidence `0.9 − 0.015·hour`; beyond the
weather data, baseline times `1 + 0.01·hour` with confidence
`max(0.3, 0.7 − 0.02·hour)`; the point stores `round(predicted, 1)` and
`round(max(0.1, confidence), 2)`. -/
def weather_integrated_point (current_aqi : ℚ)
    (weather_forecast : List ForecastWeatherHour) (hour : ℕ) : WiForecastPoint :=
  if hour ≤ weather_forecast.length then
    let weather_hour := weather_forecast.getD (hour - 1) ⟨0, 0, 0, 0, 0⟩
    let predicted_aqi :=
      current_aqi * calculate_weather_aqi_impact weather_hour
        * (1.0 + hour * 0.005)
    let confidence : ℚ := 0.9 - hour * 0.015
    ⟨hour, pyRoundTo 1 predicted_aqi, pyRoundTo 2 (max 0.1 confidence)⟩
  else
    let predicted_aqi := current_aqi * (1.0 + hour * 0.01)
    let confidence : ℚ := max 0.3 (0.7 - hour * 0.02)
    ⟨hour, pyRoundTo 1 predicted_aqi, pyRoundTo 2 (max 0.1 confidence)⟩

/-- AdvancedForecastingService._generate_weather_integrated_forecast: the
points at hour offsets 1 to hours_ahead. -/
def generate_weather_integrated_forecast (current_aqi : ℚ)
    (weather_forecast : List ForecastWeatherHour) (hours_ahead : ℕ) :
    List WiForecastPoint :=
  (List.range hours_ahead).map fun i =>
    weather_integrated_point current_aqi weather_forecast (i + 1)

/-- The forecast start time: the hour of day and the weekday at which the
projection run starts. -/
structure StartTime where
  hour : ℕ
  weekday : ℕ
deriving DecidableEq

/-- Hour of day of forecast offset `h` (the `.hour` of `utcnow + h hours`). -/
def hour_of_day (t0 : StartTime) (h : ℕ) : ℕ := (t0.hour + h) % 24

/-- Weekday of forecast offset `h` (the `.weekday()` of `utcnow + h hours`),
with the start hour counted in since day boundaries may be crossed. -/
def day_of_week (t0 : StartTime) (h : ℕ) : ℕ :=
  (t0.weekday + (t0.hour + h) / 24) % 7

/-- The diurnal factor of `_generate_temporal_trend_forecast`:
`1 + 0.2·sin(2π·(hour_of_day − 6)/24)`. -/
noncomputable def diurnal_factor (hod : ℕ) : ℝ :=
  1 + 0.2 * Real.sin (2 * Real.pi * ((hod : ℝ) - 6) / 24)

/-- The predicted AQI of `_generate_temporal_trend_forecast` before the
one-decimal rounding: baseline times diurnal, weekly, trend and variability
factors. -/
noncomputable def temporal_predicted_raw (current_aqi : ℝ) (t0 : StartTime)
    (hour : ℕ) : ℝ :=
  current_aqi * diurnal_factor (hour_of_day t0 hour)
    * (if day_of_week t0 hour < 5 then (1.05 : ℝ) else 0.95)
    * (1 + hour * 0.002)
    * (0.95 + (hour % 6 : ℕ) * 0.02)

/-- The stored confidence of a temporal-trend point:
`round(max(0.4, 0.85 − 0.01·hour), 2)`. -/
def temporal_confidence (hour : ℕ) : ℚ :=
  pyRoundTo 2 (max 0.4 (0.85 - hour * 0.01))

/-- Python `round` on a real value, half to even, for the one-decimal rounding
of the temporal predicted AQI. -/
noncomputable def pyRoundR (x : ℝ) : ℤ :=
  if x - ⌊x⌋ < 1/2 then ⌊x⌋
  else if 1/2 < x - ⌊x⌋ then ⌊x⌋ + 1
  else if 2 ∣ ⌊x⌋ then ⌊x⌋ else ⌊x⌋ + 1

/-- Python `round(x, 1)` on a real value. -/
noncomputable def pyRoundToR1 (x : ℝ) : ℝ := (pyRoundR (x * 10) : ℝ) / 10

/-- A temporal-trend forecast point, reduced to the hour offset, the stored
predicted AQI and the stored confidence. -/
structure TemporalForecastPoint where
  hour_ahead : ℕ
  predicted_aqi : ℝ
  confidence : ℚ

/-- The body of the hour loop of `_generate_temporal_trend_forecast`. -/
noncomputable def temporal_trend_point (current_aqi : ℝ) (t0 : StartTime)
    (hour : ℕ) : TemporalForecastPoint :=
  ⟨hour, pyRoundToR1 (temporal_predicted_raw current_aqi t0 hour),
    temporal_confidence hour⟩

/-- AdvancedForecastingService._generate_temporal_trend_forecast: the points
at hour offsets 1 to hours_ahead. -/
noncomputable def generate_temporal_trend_forecast (current_aqi : ℝ)
    (t0 : StartTime) (hours_ahead : ℕ) : List TemporalForecastPoint :=
  (List.range hours_ahead).map fun i =>
    temporal_trend_point current_aqi t0 (i + 1)

/-- The temporal-trend prediction as worded in the spec: baseline times
diurnal factor, weekly factor and long-term trend, with no other terms. -/
noncomputable def specTemporalPredicted (baseline : ℝ) (t0 : StartTime)
    (hour : ℕ) : ℝ :=
  baseline * (1 + 0.2 * Real.sin (2 * Real.pi * ((hour_of_day t0 hour : ℝ) - 6) / 24))
    * (if day_of_week t0 hour < 5 then (1.05 : ℝ) else 0.95)
    * (1 + hour * 0.002)

theorem wi_forecast_getD (b : ℚ) (wf : List ForecastWeatherHour) {n i : ℕ}
    (h : i < n) (d : WiForecastPoint) :
    (generate_weather_integrated_forecast b wf n).getD i d
      = weather_integrated_point b wf (i + 1) := by
  unfold generate_weather_integrated_forecast
  rw [List.getD_eq_getElem?_getD, List.getElem?_map, List.getElem?_range h]
  rfl

theorem tt_forecast_getD (b : ℝ) (t0 : StartTime) {n i : ℕ} (h : i < n)
    (d : TemporalForecastPoint) :
    (generate_temporal_trend_forecast b t0 n).getD i d
      = temporal_trend_point b t0 (i + 1) := by
  unfold generate_temporal_trend_forecast
  rw [List.getD_eq_getElem?_getD, List.getElem?_map, List.getElem?_range h]
  rfl

theorem wi_point_confidence (b : ℚ) (wf : List ForecastWeatherHour) (h : ℕ) :
    (weather_integrated_point b wf h).confidence
      = if h ≤ wf.length then pyRoundTo 2 (max 0.1 (0.9 - h * 0.015))
        else pyRoundTo 2 (max 0.1 (max 0.3 (0.7 - h * 0.02))) := by
  unfold weather_integrated_point
  split_ifs <;> rfl

theorem temporal_confidence_antitone {h1 h2 : ℕ} (h : h1 ≤ h2) :
    temporal_confidence h2 ≤ temporal_confidence h1 := by
  unfold temporal_confidence
  apply pyRoundTo_mono
  have hc : (h1 : ℚ) ≤ h2 := by exact_mod_cast h
  exact max_le_max le_rfl (by linarith)

theorem wi_point_confidence_antitone (b : ℚ) (wf : List ForecastWeatherHour)
    {h1 h2 : ℕ} (hh : h1 ≤ h2) (hcase : wf.length ≤ 40 ∨ h2 ≤ wf.length) :
    (weather_integrated_point b wf h2).confidence
      ≤ (weather_integrated_point b wf h1).confidence := by
  rw [wi_point_confidence, wi_point_confidence]
  have hc12 : (h1 : ℚ) ≤ h2 := by exact_mod_cast hh
  have hpos : (0 : ℚ) ≤ h1 := by positivity
  by_cases c2 : h2 ≤ wf.length
  · have c1 : h1 ≤ wf.length := le_trans hh c2
    rw [if_pos c1, if_pos c2]
    exact pyRoundTo_mono 2 (max_le_max le_rfl (by linarith))
  · rw [if_neg c2]
    have hW : wf.length ≤ 40 := by
      rcases hcase with h40 | hle
      · exact h40
      · exact absurd hle c2
    by_cases c1 : h1 ≤ wf.length
    · rw [if_pos c1]
      apply pyRoundTo_mono
      apply max_le_max le_rfl
      have h1le : (h1 : ℚ) ≤ 40 := by exact_mod_cast le_trans c1 hW
      apply max_le
      · linarith
      · linarith
    · rw [if_neg c1]
      exact pyRoundTo_mono 2
        (max_le_max le_rfl (max_le_max le_rfl (by linarith)))

/-- C7, counterexample: with 41 hourly weather snapshots and a 42-hour
horizon, the stored confidence at hour 41 (inside the weather data) is 0.28
while at hour 42 (fallback branch, floored at 0.3) it is 0.3 — confidence
increases along the returned sequence. -/
theorem weather_confidence_jump_counterexample :
    ((generate_weather_integrated_forecast 75 (List.replicate 41 ⟨0, 0, 0, 0, 0⟩)
        42).getD 40 ⟨0, 0, 0⟩).confidence
      < ((generate_weather_integrated_forecast 75
            (List.replicate 41 ⟨0, 0, 0, 0, 0⟩) 42).getD 41 ⟨0, 0, 0⟩).confidence := by
  rw [wi_forecast_getD _ _ (by norm_num) _, wi_forecast_getD _ _ (by norm_num) _]
  rw [wi_point_confidence, wi_point_confidence, List.length_replicate]
  rw [if_pos (by norm_num : (40 + 1 : ℕ) ≤ 41),
    if_neg (by norm_num : ¬ (41 + 1 : ℕ) ≤ 41)]
  rw [show max (0.1 : ℚ) (0.9 - (40 + 1 : ℕ) * 0.015) = 0.285 by
    rw [show (0.9 : ℚ) - (40 + 1 : ℕ) * 0.015 = 0.285 by push_cast; norm_num,
      max_eq_right (by norm_num : (0.1 : ℚ) ≤ 0.285)]]
  rw [show max (0.1 : ℚ) (max 0.3 (0.7 - (41 + 1 : ℕ) * 0.02)) = 0.3 by
    rw [show (0.7 : ℚ) - (41 + 1 : ℕ) * 0.02 = -0.14 by push_cast; norm_num,
      max_eq_left (by norm_num : (-0.14 : ℚ) ≤ 0.3),
      max_eq_right (by norm_num : (0.1 : ℚ) ≤ 0.3)]]
  rw [show pyRoundTo 2 (0.285 : ℚ) = 0.28 by
    unfold pyRoundTo pyRound
    rw [show (0.285 : ℚ) * 10 ^ 2 = 28.5 by norm_num]
    rw [show ⌊(28.5 : ℚ)⌋ = 28 by norm_num [Int.floor_eq_iff]]
    norm_num]
  rw [show pyRoundTo 2 (0.3 : ℚ) = 0.3 by
    unfold pyRoundTo pyRound
    rw [show (0.3 : ℚ) * 10 ^ 2 = 30 by norm_num]
    rw [show ⌊(30 : ℚ)⌋ = 30 by norm_num [Int.floor_eq_iff]]
    norm_num]
  norm_num

/-- C7 (amended): within one projection run the stored confidence is
non-increasing along the hour sequence for the temporal-trend strategy
unconditionally, and for the weather-integrated strategy whenever the weather
forecast holds at most 40 hourly snapshots or the horizon does not extend past
the weather data; at a transition past more than 40 snapshots the fallback
floor 0.3 can exceed the last in-data confidence. -/
theorem forecast_confidence_nonincreasing :
    (∀ (b : ℝ) (t0 : StartTime) (n i j : ℕ), i < j → j < n →
      ((generate_temporal_trend_forecast b t0 n).getD j ⟨0, 0, 0⟩).confidence
        ≤ ((generate_temporal_trend_forecast b t0 n).getD i ⟨0, 0, 0⟩).confidence) ∧
    (∀ (b : ℚ) (wf : List ForecastWeatherHour) (n i j : ℕ), i < j → j < n →
      (wf.length ≤ 40 ∨ n ≤ wf.length) →
      ((generate_weather_integrated_forecast b wf n).getD j ⟨0, 0, 0⟩).confidence
        ≤ ((generate_weather_integrated_forecast b wf n).getD i ⟨0, 0, 0⟩).confidence) := by
  constructor
  · intro b t0 n i j hij hjn
    rw [tt_forecast_getD b t0 hjn, tt_forecast_getD b t0 (lt_trans hij hjn)]
    exact temporal_confidence_antitone (by omega)
  · intro b wf n i j hij hjn hcase
    rw [wi_forecast_getD b wf hjn, wi_forecast_getD b wf (lt_trans hij hjn)]
    apply wi_point_confidence_antitone b wf (by omega)
    rcases hcase with h40 | hlen
    · exact Or.inl h40
    · exact Or.inr (by omega)

/-- Witness for the amended C7 theorem: three-hour runs of both strategies at
hours 1 and 2. -/
theorem forecast_confidence_nonincreasing_witness :
    ((generate_temporal_trend_forecast 75 ⟨0, 0⟩ 3).getD 1 ⟨0, 0, 0⟩).confidence
      ≤ ((generate_temporal_trend_forecast 75 ⟨0, 0⟩ 3).getD 0 ⟨0, 0, 0⟩).confidence ∧
    ((generate_weather_integrated_forecast 75 [] 3).getD 1 ⟨0, 0, 0⟩).confidence
      ≤ ((generate_weather_integrated_forecast 75 [] 3).getD 0 ⟨0, 0, 0⟩).confidence :=
  ⟨forecast_confidence_nonincreasing.1 75 ⟨0, 0⟩ 3 0 1 (by norm_num) (by norm_num),
   forecast_confidence_nonincreasing.2 75 [] 3 0 1 (by norm_num) (by norm_num)
     (Or.inl (by norm_num))⟩

/-- C8 (amended): for every baseline, start time and forecast hour the
temporal-trend predicted AQI before the one-decimal rounding equals the spec
product of baseline, diurnal factor, weekly factor and long-term trend,
multiplied by one further variability factor `0.95 + 0.02·(hour mod 6)` that
the spec formula does not mention. -/
theorem temporal_predicted_eq_spec_times_variability (baseline : ℝ)
    (t0 : StartTime) (hour : ℕ) :
    temporal_predicted_raw baseline t0 hour
      = specTemporalPredicted baseline t0 hour
        * (0.95 + (hour % 6 : ℕ) * 0.02) := by
  unfold temporal_predicted_raw specTemporalPredicted diurnal_factor
  ring

/-- C8, counterexample: at baseline 100, start hour 0 on weekday 0 and
forecast hour 1 the code prediction is 0.97 times the spec formula value,
which is positive, so the two differ. -/
theorem temporal_predicted_ne_spec_counterexample :
    temporal_predicted_raw 100 ⟨0, 0⟩ 1 ≠ specTemporalPredicted 100 ⟨0, 0⟩ 1 := by
  have key : 0 < specTemporalPredicted 100 ⟨0, 0⟩ 1 := by
    unfold specTemporalPredicted
    rw [if_pos (by decide : day_of_week ⟨0, 0⟩ 1 < 5)]
    have hb := Real.neg_one_le_sin
      (2 * Real.pi * (((hour_of_day ⟨0, 0⟩ 1 : ℕ) : ℝ) - 6) / 24)
    push_cast
    nlinarith [hb]
  have hvar : temporal_predicted_raw 100 ⟨0, 0⟩ 1
      = specTemporalPredicted 100 ⟨0, 0⟩ 1 * (0.95 + ((1 % 6 : ℕ) : ℝ) * 0.02) := by
    unfold temporal_predicted_raw specTemporalPredicted diurnal_factor
    ring
  rw [hvar, show ((1 % 6 : ℕ) : ℝ) = 1 by norm_num]
  intro heq
  nlinarith [key, heq]

end AirWatch
